import Mathlib

/-!
Shallow embedding of the Maestro console's session and state-synchronization
layer (`src/frontend/src/main.ts`): the reconnect backoff and connection
lifecycle (`connectWS`), the inbound message dispatcher
(`handleSocketMessage`), the per-agent status board (`updateAgentStatus`,
`resetAgents`), the guidance channel (`sendGuidance`), and the project
catalog rendering (`loadProjects`, `renderProjects`, `renderRecentProjects`).

DOM state is modelled as explicit Lean state: the LED board as a function
from the known agents to their status, the activity log and final-output
modal as lists of received values, and button enablement as a Bool.
JavaScript `undefined`/`null` values become `Option`, and the uncaught
exception path of the message handler becomes `Except`.
-/

namespace Maestro

/-- The four CSS classes a status LED can carry (`idle`, `active`,
`waiting`, `error`); `updateAgentStatus` removes all four and adds exactly
one, so the LED's visual state is one of these. -/
inductive VisualState
  | idle
  | active
  | waiting
  | error
deriving DecidableEq, Repr

/-- Observable state of one agent's LED: the visual state class on the
`.led` element and the text content of the `.led-action` element. -/
structure AgentStatus where
  visual : VisualState
  action : String
deriving DecidableEq, Repr

/-- The eight known agents: the key set of `agentToLedId` in `main.ts`,
one LED container per declared agent name. -/
inductive Agent
  | orchestrator
  | research
  | uiux
  | developer
  | security
  | qa
  | docs
  | refiner
deriving DecidableEq, Repr

/-- `agentToLedId` from `main.ts` lines 128-137: agent name to LED element id. -/
def agentToLedId (agent : String) : Option String :=
  match agent with
  | "Orchestrator" => some "led-orchestrator"
  | "Research" => some "led-research"
  | "UI/UX Designer" => some "led-uiux"
  | "Developer" => some "led-developer"
  | "Security" => some "led-security"
  | "QA Tester" => some "led-qa"
  | "Documentation" => some "led-docs"
  | "Refiner" => some "led-refiner"
  | _ => none

/-- Modelled from the spec: the page markup (`index.html`) is not among the
sources, so `document.getElementById(ledId)` is modelled per spec section 3,
"AgentStatus entries are a fixed, known set (one per declared agent name)":
each of the eight LED ids resolves to its agent's LED container. -/
def ledIdToAgent (ledId : String) : Option Agent :=
  match ledId with
  | "led-orchestrator" => some .orchestrator
  | "led-research" => some .research
  | "led-uiux" => some .uiux
  | "led-developer" => some .developer
  | "led-security" => some .security
  | "led-qa" => some .qa
  | "led-docs" => some .docs
  | "led-refiner" => some .refiner
  | _ => none

/-- The lookup `agentToLedId[agent]` followed by `document.getElementById`:
the agent's LED container, when the name is known. -/
def knownAgentOf (agent : String) : Option Agent :=
  (agentToLedId agent).bind ledIdToAgent

/-- The LED board: the status of every known agent's LED container. -/
abbrev Board := Agent → AgentStatus

/-- The `.led-action` text set by `updateAgentStatus`:
`text.length > 20 ? text.substring(0, 18) + '...' : text`. -/
def truncAction (text : String) : String :=
  if text.length > 20 then text.take 18 ++ "..." else text

/-- The if-chain of `updateAgentStatus` lines 150-158 choosing which class
to add after removing all four; `status` is `undefined` when absent. -/
def ledVisualFor (status : Option String) : VisualState :=
  if status = some "error" then .error
  else if status = some "waiting" then .waiting
  else if status = some "complete" then .idle
  else .active

/-- `updateAgentStatus(agent, text, status?)` from `main.ts` lines 139-171,
restricted to its effect on the LED board: an unknown agent name leaves the
board untouched; a known agent's LED gets the class chosen by the status
if-chain and its action text replaced by the (possibly truncated) text.
(The `setTimeout(loadProjectFiles, 500)` on "created"/"wrote" texts touches
the file tree, not the board, and is outside the modelled state.) -/
def updateAgentStatus (agent text : String) (status : Option String) (b : Board) : Board :=
  match knownAgentOf agent with
  | none => b
  | some a => fun x => if x = a then { visual := ledVisualFor status, action := truncAction text } else b x

/-- `resetAgents()` from `main.ts` lines 173-181: for every `.agent-led`
container, remove `active`/`waiting`/`error` and add `idle` on the LED and
set the action text to "Idle". -/
def resetAgents (_b : Board) : Board :=
  fun _ => { visual := .idle, action := "Idle" }

/-- A decoded inbound frame, classified the way `handleSocketMessage`
switches on `data.type`; `other` covers every type with no case (the
switch falls through and does nothing). -/
inductive Frame
  | log (agent text : String) (status : Option String)
  | finalOutput (text : String) (outputPath : Option String)
  | other (type : String)
deriving DecidableEq, Repr

/-- Observable UI state touched by the message dispatcher: the LED board,
the activity log (`logsContainer`, newest prepended, as (agent, text)
pairs), the arguments received by the final-output modal sink
(`showFinalOutput`), and whether the start button is enabled. -/
structure UIState where
  board : Board
  activityLog : List (String × String)
  finalOutputs : List (String × Option String)
  startEnabled : Bool

/-- `handleSocketMessage(data)` from `main.ts` lines 74-86: a `log` frame
is prepended to the activity feed (`addLog`) and applied to the board
(`updateAgentStatus`); a `final_output` frame is forwarded to
`showFinalOutput(text, outputPath)`, resets the board (`resetAgents`) and
re-enables the start button (`enableStartButton`); any other type is a
no-op. -/
def handleSocketMessage (f : Frame) (st : UIState) : UIState :=
  match f with
  | .log agent text status =>
      { st with
        activityLog := (agent, text) :: st.activityLog
        board := updateAgentStatus agent text status st.board }
  | .finalOutput text outputPath =>
      { st with
        finalOutputs := (text, outputPath) :: st.finalOutputs
        board := resetAgents st.board
        startEnabled := true }
  | .other _ => st

/-- The `socket.onmessage` handler from `main.ts` lines 55-58:
`JSON.parse(event.data)` then `handleSocketMessage`. There is no
try/catch, so when the payload is not valid JSON the `SyntaxError` thrown
by `JSON.parse` propagates out of the handler; `decoded` is the outcome of
`JSON.parse` (`none` = parse threw). -/
def onmessage (decoded : Option Frame) (st : UIState) : Except String UIState :=
  match decoded with
  | none => .error "SyntaxError"
  | some f => .ok (handleSocketMessage f st)

/-- Delivery of one frame to the registered `onmessage` listener: the
browser's event dispatch reports an exception uncaught by a listener and
continues, so a throwing handler leaves the session state unchanged. -/
def deliverFrame (decoded : Option Frame) (st : UIState) : UIState :=
  match onmessage decoded st with
  | .ok st' => st'
  | .error _ => st

/-- Connection-manager state from `main.ts`: the module-level
`reconnectAttempts` counter and the backend-online indicator set by
`updateBackendStatus`. -/
structure ConnState where
  reconnectAttempts : Nat
  backendOnline : Bool
deriving DecidableEq, Repr

/-- The backoff delay computed in `socket.onclose`, line 46:
`Math.min(3000 * Math.pow(2, reconnectAttempts), 30000)`. (Exact in Nat:
for every attempt count the float computation and the integer one agree on
the resulting delay, since the cap absorbs all rounding past 2^53.) -/
def delay (attempts : Nat) : Nat :=
  min (3000 * 2 ^ attempts) 30000

/-- Lifecycle callbacks of `connectWS`'s socket relevant to the attempt
counter: `onopen` and `onclose`. (`onerror` only calls `socket.close()`,
which funnels into `onclose`.) -/
inductive ConnEvent
  | onopen
  | onclose
deriving DecidableEq, Repr

/-- One lifecycle callback from `main.ts` lines 36-49, returning the new
state and the reconnect delay passed to `setTimeout`, when one is
scheduled. `onopen` resets `reconnectAttempts` to 0 and marks the backend
online; `onclose` marks it offline, computes the delay from the current
counter, increments the counter, and schedules `connectWS` after that
delay. -/
def connStep (e : ConnEvent) (s : ConnState) : ConnState × Option Nat :=
  match e with
  | .onopen => ({ s with reconnectAttempts := 0, backendOnline := true }, none)
  | .onclose =>
      ({ s with backendOnline := false, reconnectAttempts := s.reconnectAttempts + 1 },
       some (delay s.reconnectAttempts))

/-- Ready state of the session's `WebSocket`, for stating which sockets are
actually open; `sendGuidance` itself never inspects it. -/
inductive SocketReadyState
  | connecting
  | opened
  | closing
  | closed
deriving DecidableEq, Repr

/-- State read and written by `sendGuidance`: the guidance input's value,
the module-level `socket` (null before the first `connectWS`), and the
module-level `currentProjectId`. -/
structure GuidanceCtx where
  guidanceValue : String
  socket : Option SocketReadyState
  currentProjectId : Option String
deriving DecidableEq, Repr

/-- The outbound frame serialized by `JSON.stringify` in `sendGuidance`. -/
structure OutFrame where
  type : String
  projectId : String
  text : String
deriving DecidableEq, Repr

/-- JavaScript `String.prototype.trim()`: drop whitespace from both ends.
(Executable character-list form of `String.trim`, so concrete inputs
evaluate in the kernel.) -/
def trimString (s : String) : String :=
  String.mk (((s.data.dropWhile Char.isWhitespace).reverse.dropWhile Char.isWhitespace).reverse)

/-- JavaScript truthiness of `currentProjectId` (a string or null): falsy
when null or the empty string. -/
def strOptFalsy : Option String → Bool
  | none => true
  | some s => s = ""

/-- `sendGuidance()` from `main.ts` lines 410-421: trim the input; return
with no effect if the trimmed text is empty, `socket` is null, or
`currentProjectId` is falsy; otherwise hand the guidance frame to
`socket.send` (whatever the socket's ready state — only nullness is
checked) and clear the input. Returns the new state and the frame passed
to `socket.send`, if any. -/
def sendGuidance (st : GuidanceCtx) : GuidanceCtx × Option OutFrame :=
  let text := trimString st.guidanceValue
  if text = "" || st.socket.isNone || strOptFalsy st.currentProjectId then
    (st, none)
  else
    ({ st with guidanceValue := "" },
     some { type := "guidance", projectId := st.currentProjectId.getD "", text := text })

/-- One project summary as returned by `GET /projects`; `updated_at` is the
backend's ISO timestamp, abstracted to a totally ordered instant. -/
structure ProjectSummary where
  path : String
  name : String
  objective : Option String
  status : String
  updated_at : Nat
deriving DecidableEq, Repr

/-- Result of `renderProjects`: the empty-state placeholder for a length-0
list, else the grid of all project cards in list order. -/
inductive ProjectsRender
  | emptyState
  | grid (ps : List ProjectSummary)
deriving DecidableEq, Repr

/-- Result of `renderRecentProjects`: the empty-state placeholder for a
length-0 list, else the recent items in list order. -/
inductive RecentRender
  | emptyState
  | items (ps : List ProjectSummary)
deriving DecidableEq, Repr

/-- `renderProjects(projects)` from `main.ts` lines 263-311, restricted to
which cards are rendered in which order. -/
def renderProjects (ps : List ProjectSummary) : ProjectsRender :=
  if ps.length = 0 then .emptyState else .grid ps

/-- `renderRecentProjects(projects)` from `main.ts` lines 325-343,
restricted to which items are rendered in which order. -/
def renderRecentProjects (ps : List ProjectSummary) : RecentRender :=
  if ps.length = 0 then .emptyState else .items ps

/-- `loadProjects()` from `main.ts` lines 252-261, applied to the
`data.projects` array of a successful response: render the full grid and
the recent view of `projects.slice(0, 5)`. -/
def loadProjects (ps : List ProjectSummary) : ProjectsRender × RecentRender :=
  (renderProjects ps, renderRecentProjects (ps.take 5))

/-- Modelled from the spec: the project listing backend (the repository's
`project_manager.py`, referenced by the build spec but not among the
sources) orders `GET /projects` responses most-recently-updated first, per
spec section 4.6's "recent" view contract. Stated as: each entry's
`updated_at` is at least its successor's. -/
abbrev MostRecentFirst (ps : List ProjectSummary) : Prop :=
  ps.Chain' (fun a b => b.updated_at ≤ a.updated_at)

/-- A board with every agent idle, as rendered before any event. -/
def emptyBoard : Board :=
  fun _ => { visual := .idle, action := "Idle" }

/-- UI state at page load: idle board, empty feed, no final output, start
button enabled. -/
def initUIState : UIState :=
  { board := emptyBoard, activityLog := [], finalOutputs := [], startEnabled := true }

/-- Claim C1: for every inbound AgentEvent applied to a known agent's
status, the resulting visual state is determined exhaustively by the
event's status field: "error" yields error, "waiting" yields waiting,
"complete" yields idle, and an absent or any other value yields active. -/
theorem inbound_status_determines_visual_state
    (agent text : String) (status : Option String) (b : Board) (a : Agent)
    (h : knownAgentOf agent = some a) :
    (updateAgentStatus agent text status b a).visual =
      (if status = some "error" then VisualState.error
       else if status = some "waiting" then VisualState.waiting
       else if status = some "complete" then VisualState.idle
       else VisualState.active) := by
  simp [updateAgentStatus, h, ledVisualFor]

/-- Witness for claim C1: a "Developer" log event with status "error"
turns the Developer LED red. -/
theorem inbound_status_determines_visual_state_witness :
    knownAgentOf "Developer" = some Agent.developer ∧
    (updateAgentStatus "Developer" "Writing main.py" (some "error") emptyBoard
      Agent.developer).visual = VisualState.error := by
  refine ⟨rfl, ?_⟩
  rw [inbound_status_determines_visual_state "Developer" "Writing main.py" (some "error")
    emptyBoard Agent.developer rfl]
  decide

/-- Claim C2: the delay computed on connection loss before scheduling a
reconnect equals min(3000 * 2^attempts, 30000) milliseconds, is
monotonically non-decreasing in the attempt count, and is bounded above by
30000. -/
theorem backoff_delay_formula_monotone_bounded :
    (∀ s : ConnState,
      (connStep .onclose s).2 = some (min (3000 * 2 ^ s.reconnectAttempts) 30000)) ∧
    (∀ m n : Nat, m ≤ n → delay m ≤ delay n) ∧
    (∀ n : Nat, delay n ≤ 30000) := by
  refine ⟨fun s => rfl, fun m n h => ?_, fun n => min_le_right _ _⟩
  exact min_le_min
    (Nat.mul_le_mul_left _ (Nat.pow_le_pow_right (by norm_num) h)) le_rfl

/-- Witness for claim C2: the delay after one attempt is at most the delay
after five. -/
theorem backoff_delay_witness : 1 ≤ 5 ∧ delay 1 ≤ delay 5 :=
  ⟨by decide, backoff_delay_formula_monotone_bounded.2.1 1 5 (by decide)⟩

/-- Counterexample to claim C3 as stated: on a payload that is not valid
JSON, the `SyntaxError` thrown by `JSON.parse` escapes the `onmessage`
handler — there is no try/catch in `connectWS` — so the drop is not
silent at the handler level. -/
theorem decode_failure_escapes_handler :
    onmessage none initUIState = Except.error "SyntaxError" := rfl

/-- Claim C3 as amended: when an inbound frame fails to decode, the
handler aborts before dispatch with the uncaught `JSON.parse` exception;
the browser's event dispatch contains it, so the session state is
unchanged and only that frame is lost — but the exception does escape the
handler rather than being silently swallowed. -/
theorem decode_failure_drops_only_that_frame :
    ∀ st : UIState,
      onmessage none st = Except.error "SyntaxError" ∧ deliverFrame none st = st :=
  fun _ => ⟨rfl, rfl⟩

/-- A reachable guidance context whose socket is non-null but closed:
after a remote close, `socket` still holds the closed WebSocket until the
reconnect timer replaces it. -/
def guidanceCtxClosed : GuidanceCtx :=
  { guidanceValue := "go faster", socket := some .closed, currentProjectId := some "p1" }

/-- Counterexample to claim C4 as stated: with a non-null but closed
socket, non-empty text and a bound project, guidance submit is not a
no-op — `sendGuidance` checks only `!socket`, never the ready state, so it
hands the frame to `socket.send` and clears the input buffer. -/
theorem guidance_sent_with_closed_socket :
    sendGuidance guidanceCtxClosed ≠ (guidanceCtxClosed, none) := by decide

/-- Claim C4 as amended: guidance submit is a no-op exactly when the
trimmed text is empty, the socket reference is null, or no (non-empty)
project id is bound; the socket's open state is not checked, so with any
non-null socket and the other preconditions met, exactly one frame
{type:"guidance", projectId, text} is handed to `socket.send` and the
input buffer is cleared. -/
theorem guidance_submit_checks_nullness_not_openness :
    ∀ st : GuidanceCtx,
      (trimString st.guidanceValue = "" ∨ st.socket = none ∨ strOptFalsy st.currentProjectId = true →
        sendGuidance st = (st, none)) ∧
      (∀ p, st.socket ≠ none → trimString st.guidanceValue ≠ "" →
        st.currentProjectId = some p → p ≠ "" →
        sendGuidance st = ({ st with guidanceValue := "" },
          some { type := "guidance", projectId := p, text := trimString st.guidanceValue })) := by
  intro st
  constructor
  · intro h
    rcases h with h | h | h
    · simp [sendGuidance, h]
    · simp [sendGuidance, h]
    · simp [sendGuidance, h]
  · intro p hs ht hp hpne
    have hsock : st.socket.isNone = false := by
      cases hsv : st.socket with
      | none => exact absurd hsv hs
      | some v => rfl
    simp [sendGuidance, ht, hsock, hp, strOptFalsy, hpne]

/-- Witness for claim C4 (amended): with text "go faster", a closed but
non-null socket, and project "p1" bound, exactly that guidance frame is
handed to send and the buffer is cleared. -/
theorem guidance_submit_witness :
    guidanceCtxClosed.socket ≠ none ∧
    trimString guidanceCtxClosed.guidanceValue ≠ "" ∧
    guidanceCtxClosed.currentProjectId = some "p1" ∧
    ("p1" : String) ≠ "" ∧
    sendGuidance guidanceCtxClosed =
      ({ guidanceCtxClosed with guidanceValue := "" },
       some { type := "guidance", projectId := "p1", text := "go faster" }) := by
  refine ⟨by decide, by decide, rfl, by decide, ?_⟩
  exact (guidance_submit_checks_nullness_not_openness guidanceCtxClosed).2 "p1"
    (by decide) (by decide) rfl (by decide)

/-- Claim C5: a final_output frame with text t and output path p resets
every known agent to {idle, "Idle"}, forwards (t, p) to the terminal-output
sink, and re-enables the start control. -/
theorem final_output_resets_and_reenables
    (text : String) (outputPath : Option String) (st : UIState) :
    (∀ a, (handleSocketMessage (.finalOutput text outputPath) st).board a =
      { visual := .idle, action := "Idle" }) ∧
    (handleSocketMessage (.finalOutput text outputPath) st).finalOutputs =
      (text, outputPath) :: st.finalOutputs ∧
    (handleSocketMessage (.finalOutput text outputPath) st).startEnabled = true :=
  ⟨fun _ => rfl, rfl, rfl⟩

/-- Claim C6: every successful open resets the attempt counter to 0, so the
delay computed for the next loss after that open is the base delay 3000. -/
theorem open_resets_attempts_next_delay_base (s : ConnState) :
    (connStep .onopen s).1.reconnectAttempts = 0 ∧
    (connStep .onclose (connStep .onopen s).1).2 = some (delay 0) ∧
    delay 0 = 3000 :=
  ⟨rfl, rfl, by decide⟩

/-- Claim C7: resetAll is idempotent — applying it twice yields the same
board as applying it once — and the resulting board maps every known agent
to {idle, "Idle"}. -/
theorem resetAll_idempotent_and_idle (b : Board) :
    resetAgents (resetAgents b) = resetAgents b ∧
    (∀ a, resetAgents b a = { visual := .idle, action := "Idle" }) :=
  ⟨rfl, fun _ => rfl⟩

/-- Claim C8: an AgentEvent naming an agent outside the known set leaves
the whole board unchanged (no tracked entry altered, none added; the
update is a total function, so nothing is raised). -/
theorem unknown_agent_event_noop
    (agent text : String) (status : Option String) (b : Board)
    (h : knownAgentOf agent = none) :
    updateAgentStatus agent text status b = b := by
  unfold updateAgentStatus
  rw [h]

/-- Witness for claim C8: "System" is outside the known agent set and its
events leave the board untouched. -/
theorem unknown_agent_event_noop_witness :
    knownAgentOf "System" = none ∧
    updateAgentStatus "System" "thinking" none emptyBoard = emptyBoard :=
  ⟨rfl, unknown_agent_event_noop "System" "thinking" none emptyBoard rfl⟩

/-- Claim C9: the recent view is capped at five entries and, given the
collaborator's most-recent-first response ordering (modelled from the
spec), is itself most-recent-first; a zero-project response renders the
empty state in both the grid and the recent view. -/
theorem recent_view_capped_ordered_empty (ps : List ProjectSummary) :
    (ps.take 5).length ≤ 5 ∧
    (MostRecentFirst ps → MostRecentFirst (ps.take 5)) ∧
    (ps = [] → loadProjects ps = (.emptyState, .emptyState)) := by
  refine ⟨?_, ?_, ?_⟩
  · exact List.length_take_le 5 ps
  · intro h
    exact h.prefix (List.take_prefix 5 ps)
  · rintro rfl
    rfl

/-- Sample most-recent-first listing for the C9 witness. -/
def sampleProjects : List ProjectSummary :=
  [{ path := "a", name := "Alpha", objective := none, status := "completed", updated_at := 10 },
   { path := "b", name := "Beta", objective := some "obj", status := "running", updated_at := 4 }]

/-- Witness for claim C9: a concrete sorted listing keeps its order through
the recent view, and the empty listing renders the empty states. -/
theorem recent_view_capped_ordered_empty_witness :
    MostRecentFirst sampleProjects ∧ MostRecentFirst (sampleProjects.take 5) ∧
    loadProjects ([] : List ProjectSummary) = (.emptyState, .emptyState) :=
  ⟨by simp [sampleProjects],
   (recent_view_capped_ordered_empty sampleProjects).2.1 (by simp [sampleProjects]),
   (recent_view_capped_ordered_empty []).2.2 rfl⟩

/-- Claim C10: a log AgentEvent naming a known agent changes at most that
agent's board entry; every other known agent's entry is unchanged. -/
theorem log_event_touches_only_named_agent
    (agent text : String) (status : Option String) (st : UIState)
    (a x : Agent) (h : knownAgentOf agent = some a) (hx : x ≠ a) :
    (handleSocketMessage (.log agent text status) st).board x = st.board x := by
  simp [handleSocketMessage, updateAgentStatus, h, hx]

/-- Witness for claim C10: a "Developer" log event leaves the QA Tester
entry unchanged. -/
theorem log_event_touches_only_named_agent_witness :
    knownAgentOf "Developer" = some Agent.developer ∧
    Agent.qa ≠ Agent.developer ∧
    (handleSocketMessage (.log "Developer" "Writing main.py" (some "active"))
      initUIState).board Agent.qa = initUIState.board Agent.qa :=
  ⟨rfl, by decide,
   log_event_touches_only_named_agent "Developer" "Writing main.py" (some "active")
     initUIState Agent.developer Agent.qa rfl (by decide)⟩

end Maestro
